import Mathlib

set_option maxRecDepth 100000

/-!
Shallow embedding of the startup / diagnostics layer of Sigil (src/src/main.cpp):
the installed Qt message handler with its Windows clipboard-retry recovery,
the two translator resolution loops, and the bootstrap sequence of main.

Modelling conventions:
  * the platform is the one the spec describes (Q_OS_WIN32 defined, QT_VERSION
    at least 5.6), so the clipboard-recovery branch and the debug-logfile block
    are present and the Info severity exists;
  * widgets are classified by the concrete kinds the dynamic_cast chain of the
    handler distinguishes, each carrying a numeric identity; a combo box
    carries the identity of its embedded line edit, none when the combo box is
    not editable (QComboBox::lineEdit() returns null there);
  * a QTimer::singleShot call is recorded as a pair (receiver, delay); a
    single shot whose receiver is null never invokes the copy slot;
  * file-system facts (directory existence, translator loadability, file
    readability, logfile writability) are Boolean oracles supplied as inputs.
-/

/-- Severity of a Qt diagnostic message (QtMsgType). -/
inductive QtMsgType
  | debug
  | info
  | warning
  | critical
  | fatal
  deriving DecidableEq, Repr

/-- The focused widget as classified by the dynamic_cast chain of MessageHandler
(main.cpp lines 159-188): QPlainTextEdit, BookViewPreview, QLineEdit, QComboBox,
or any other widget kind.  The Nat is the identity of the control; a combo box
also records the identity of its embedded line edit, none for a non-editable
combo box. -/
inductive Widget
  | plainTextEdit (id : Nat)
  | bookViewPreview (id : Nat)
  | lineEdit (id : Nat)
  | comboBox (id : Nat) (embeddedLineEdit : Option Nat)
  | otherWidget (id : Nat)
  deriving DecidableEq, Repr

/-- The fixed clipboard failure signature (main.cpp line 56). -/
def WIN_CLIPBOARD_ERROR : String := "QClipboard::setMimeData: Failed to set data on clipboard"

/-- The retry delay in milliseconds (main.cpp line 57). -/
def RETRY_DELAY_MS : Nat := 5

/-- Ambient state read by MessageHandler: the focused widget
(QApplication::focusWidget), whether WINDOWS_SIGIL_DEBUG_LOGFILE is set and
non-empty, and whether the named log file can be opened for append. -/
structure HandlerEnv where
  focusWidget : Option Widget
  logEnvSetNonEmpty : Bool
  logFileWritable : Bool
  deriving DecidableEq, Repr

/-- Observable effects of one MessageHandler invocation.  retries records each
QTimer::singleShot call as (receiver, delay in ms), the receiver being none when
the null pointer is passed; logWrites records each line appended to the debug
log file. -/
structure HandlerResult where
  stderrLines : List String := []
  dialogs : List String := []
  retries : List (Option Nat × Nat) := []
  aborted : Bool := false
  logWrites : List String := []
  deriving DecidableEq, Repr

/-- Receiver passed to QTimer::singleShot by the Critical recovery branch, per
widget kind: the widget itself for QPlainTextEdit, BookViewPreview and
QLineEdit; the embedded line edit (possibly null) for QComboBox; none of the
casts matches for any other kind (no retry is scheduled). -/
def retryReceiver : Widget → Option (Option Nat)
  | .plainTextEdit i => some (some i)
  | .bookViewPreview i => some (some i)
  | .lineEdit i => some (some i)
  | .comboBox _ embedded => some embedded
  | .otherWidget _ => none

/-- Character-list core of the QString::startsWith test. -/
def charsStartWith : List Char → List Char → Bool
  | _, [] => true
  | [], _ :: _ => false
  | c :: cs, d :: ds => c == d && charsStartWith cs ds

/-- QString::startsWith, modelled on the character sequences of the two
strings: true when p is an initial segment of s. -/
def stringStartsWith (s p : String) : Bool :=
  charsStartWith s.data p.data

/-- The block after the switch (main.cpp lines 200-211): when the logfile
environment variable is set and non-empty, open the file for append and write
win_debug_message followed by endl; an unwritable file is silently ignored
(QTextStream on an unopened QFile writes nothing). -/
def appendLogBlock (env : HandlerEnv) (winDebugMessage : String)
    (r : HandlerResult) : HandlerResult :=
  if env.logEnvSetNonEmpty && env.logFileWritable then
    { r with logWrites := [winDebugMessage] }
  else r

/-- The clipboard-recovery test inside the Critical case (main.cpp lines
155-189): when the message starts with the clipboard signature and the focused
widget is matched by one of the four casts, yields the singleShot receiver;
yields none when no retry is scheduled (dialog path). -/
def criticalRecovery (message : String) (focus : Option Widget) :
    Option (Option Nat) :=
  if stringStartsWith message WIN_CLIPBOARD_ERROR then
    match focus with
    | some w => retryReceiver w
    | none => none
  else none

/-- MessageHandler (main.cpp lines 128-212).  Debug, Info and Warning print to
stderr; Critical either schedules one deferred copy retry (clipboard signature
plus matching focused widget) or shows one dialog; Fatal shows one dialog and
aborts.  Every path except Fatal then runs the logfile block, whose written
line is win_debug_message: set only by the Debug case, the empty string
otherwise. -/
def messageHandler (t : QtMsgType) (message : String) (env : HandlerEnv) :
    HandlerResult :=
  match t with
  | .debug =>
      appendLogBlock env ("Debug: " ++ message)
        { stderrLines := ["Debug: " ++ message] }
  | .info =>
      appendLogBlock env "" { stderrLines := ["Info: " ++ message] }
  | .warning =>
      appendLogBlock env "" { stderrLines := ["Warning: " ++ message] }
  | .critical =>
      match criticalRecovery message env.focusWidget with
      | some receiver =>
          appendLogBlock env "" { retries := [(receiver, RETRY_DELAY_MS)] }
      | none =>
          appendLogBlock env "" { dialogs := ["Critical: " ++ message] }
  | .fatal =>
      { dialogs := ["Fatal: " ++ message], aborted := true }

/-- The controls on which the deferred single shot actually re-invokes the copy
slot: receivers that are non-null.  A single shot given a null receiver never
fires the slot. -/
def copyReinvocations (r : HandlerResult) : List Nat :=
  r.retries.filterMap (fun pr => pr.1)

theorem appendLogBlock_retries (env : HandlerEnv) (m : String) (r : HandlerResult) :
    (appendLogBlock env m r).retries = r.retries := by
  unfold appendLogBlock
  split <;> rfl

theorem appendLogBlock_dialogs (env : HandlerEnv) (m : String) (r : HandlerResult) :
    (appendLogBlock env m r).dialogs = r.dialogs := by
  unfold appendLogBlock
  split <;> rfl

theorem appendLogBlock_stderrLines (env : HandlerEnv) (m : String) (r : HandlerResult) :
    (appendLogBlock env m r).stderrLines = r.stderrLines := by
  unfold appendLogBlock
  split <;> rfl

theorem criticalRecovery_matched (message : String) (focus : Option Widget)
    (w : Widget) (receiver : Option Nat)
    (hsig : stringStartsWith message WIN_CLIPBOARD_ERROR = true)
    (hw : focus = some w) (hr : retryReceiver w = some receiver) :
    criticalRecovery message focus = some receiver := by
  simp [criticalRecovery, hsig, hw, hr]

theorem criticalRecovery_unmatched (message : String) (focus : Option Widget)
    (h : stringStartsWith message WIN_CLIPBOARD_ERROR = false ∨ focus = none ∨
      (∃ w, focus = some w ∧ retryReceiver w = none)) :
    criticalRecovery message focus = none := by
  rcases h with hsig | hnone | ⟨w, hw, hr⟩
  · simp [criticalRecovery, hsig]
  · simp only [criticalRecovery, hnone]
    split <;> rfl
  · simp only [criticalRecovery, hw]
    split <;> simp [hr]

/-- C1: for a Critical event, if the message starts with the clipboard-error
signature and the focused widget is of a supported kind (QPlainTextEdit,
BookViewPreview, QLineEdit or QComboBox, i.e. the retry receiver is defined),
exactly one deferred copy retry is scheduled on the receiver determined by that
control with a 5 ms delay and no dialog is shown; otherwise (different message,
no focused widget, or an unsupported widget kind) exactly one modal Critical
dialog is shown and no retry is scheduled. -/
theorem clipboard_recovery_dispatch (message : String) (env : HandlerEnv) :
    (∀ w receiver, stringStartsWith message WIN_CLIPBOARD_ERROR = true →
        env.focusWidget = some w → retryReceiver w = some receiver →
        (messageHandler .critical message env).retries = [(receiver, 5)] ∧
        (messageHandler .critical message env).dialogs = []) ∧
    ((stringStartsWith message WIN_CLIPBOARD_ERROR = false ∨
        env.focusWidget = none ∨
        (∃ w, env.focusWidget = some w ∧ retryReceiver w = none)) →
        (messageHandler .critical message env).dialogs = ["Critical: " ++ message] ∧
        (messageHandler .critical message env).retries = []) := by
  constructor
  · intro w receiver hsig hw hr
    have hrec := criticalRecovery_matched message env.focusWidget w receiver hsig hw hr
    simp only [messageHandler, hrec]
    refine ⟨?_, ?_⟩
    · rw [appendLogBlock_retries]; rfl
    · rw [appendLogBlock_dialogs]

  · intro hcase
    have hrec := criticalRecovery_unmatched message env.focusWidget hcase
    simp only [messageHandler, hrec]
    exact ⟨by rw [appendLogBlock_dialogs], by rw [appendLogBlock_retries]⟩

/-- Witness for C1 at concrete inputs: the matched branch on a focused
QPlainTextEdit, and the dialog branch on a non-matching message. -/
theorem clipboard_recovery_dispatch_witness :
    ((messageHandler .critical WIN_CLIPBOARD_ERROR
        { focusWidget := some (.plainTextEdit 7), logEnvSetNonEmpty := false,
          logFileWritable := false }).retries = [(some 7, 5)] ∧
      (messageHandler .critical WIN_CLIPBOARD_ERROR
        { focusWidget := some (.plainTextEdit 7), logEnvSetNonEmpty := false,
          logFileWritable := false }).dialogs = []) ∧
    ((messageHandler .critical "db locked"
        { focusWidget := some (.plainTextEdit 7), logEnvSetNonEmpty := false,
          logFileWritable := false }).dialogs = ["Critical: db locked"] ∧
      (messageHandler .critical "db locked"
        { focusWidget := some (.plainTextEdit 7), logEnvSetNonEmpty := false,
          logFileWritable := false }).retries = []) := by
  constructor
  · exact (clipboard_recovery_dispatch WIN_CLIPBOARD_ERROR
      { focusWidget := some (.plainTextEdit 7), logEnvSetNonEmpty := false,
        logFileWritable := false }).1 (.plainTextEdit 7) (some 7)
      (by decide) rfl rfl
  · exact (clipboard_recovery_dispatch "db locked"
      { focusWidget := some (.plainTextEdit 7), logEnvSetNonEmpty := false,
        logFileWritable := false }).2 (Or.inl (by decide))

/-- C4 counterexample: a concrete Critical event is written to standard error
zero times, not exactly once, refuting the claim that every severity reaches
stderr exactly once. -/
theorem critical_stderr_count_cex :
    ¬ (messageHandler .critical "boom"
        { focusWidget := none, logEnvSetNonEmpty := false,
          logFileWritable := false }).stderrLines.length = 1 := by
  decide

/-- C4 amended: Debug, Info and Warning events are each written to standard
error exactly once (as a single prefixed line); Critical and Fatal events are
never written to standard error (they surface through the recovery path or a
modal dialog instead). -/
theorem stderr_by_severity (message : String) (env : HandlerEnv) :
    (messageHandler .debug message env).stderrLines = ["Debug: " ++ message] ∧
    (messageHandler .info message env).stderrLines = ["Info: " ++ message] ∧
    (messageHandler .warning message env).stderrLines = ["Warning: " ++ message] ∧
    (messageHandler .critical message env).stderrLines = [] ∧
    (messageHandler .fatal message env).stderrLines = [] := by
  refine ⟨?_, ?_, ?_, ?_, rfl⟩
  · simp only [messageHandler]; rw [appendLogBlock_stderrLines]
  · simp only [messageHandler]; rw [appendLogBlock_stderrLines]
  · simp only [messageHandler]; rw [appendLogBlock_stderrLines]
  · simp only [messageHandler]
    cases criticalRecovery message env.focusWidget with
    | none => rw [appendLogBlock_stderrLines]
    | some receiver => rw [appendLogBlock_stderrLines]

/-- C8: the logfile block sits after the switch, outside the Debug case, so
with the environment variable set and the file writable a Warning event also
appends a line to the log file (the empty win_debug_message), contradicting
the Debug-only logging the surrounding comment and the spec describe.  The
same holds for Info and Critical; only Fatal, which aborts inside the switch,
skips the block. -/
theorem non_debug_log_write_bug :
    (messageHandler .warning "disk almost full"
        { focusWidget := none, logEnvSetNonEmpty := true,
          logFileWritable := true }).logWrites = [""] ∧
    (messageHandler .warning "disk almost full"
        { focusWidget := none, logEnvSetNonEmpty := true,
          logFileWritable := true }).logWrites.length = 1 ∧
    (messageHandler .debug "probe"
        { focusWidget := none, logEnvSetNonEmpty := true,
          logFileWritable := true }).logWrites = ["Debug: probe"] := by
  refine ⟨rfl, rfl, rfl⟩

/-- C10: when the Critical clipboard recovery matches a focused combo box, the
deferred retry is scheduled on the combo box embedded line edit (the value of
QComboBox::lineEdit), not on the combo box itself; when the combo box is not
editable that receiver is null, and the deferred single shot then re-invokes
the copy slot on no control at all. -/
theorem combobox_retry_targets_line_edit (message : String) (env : HandlerEnv)
    (i : Nat) (embedded : Option Nat)
    (hsig : stringStartsWith message WIN_CLIPBOARD_ERROR = true)
    (hw : env.focusWidget = some (.comboBox i embedded)) :
    (messageHandler .critical message env).retries = [(embedded, 5)] ∧
    (embedded = none →
      copyReinvocations (messageHandler .critical message env) = []) := by
  have hrec := criticalRecovery_matched message env.focusWidget
    (.comboBox i embedded) embedded hsig hw rfl
  simp only [messageHandler, hrec]
  constructor
  · rw [appendLogBlock_retries]; rfl
  · intro he
    subst he
    unfold copyReinvocations
    rw [appendLogBlock_retries]
    rfl

/-- Witness for C10: a non-editable combo box (null embedded line edit) with
the clipboard signature message; the single shot is scheduled with a null
receiver and no copy re-invocation occurs. -/
theorem combobox_retry_targets_line_edit_witness :
    (messageHandler .critical WIN_CLIPBOARD_ERROR
        { focusWidget := some (.comboBox 3 none), logEnvSetNonEmpty := false,
          logFileWritable := false }).retries = [(none, 5)] ∧
    (none = (none : Option Nat) →
      copyReinvocations (messageHandler .critical WIN_CLIPBOARD_ERROR
        { focusWidget := some (.comboBox 3 none), logEnvSetNonEmpty := false,
          logFileWritable := false }) = []) := by
  exact combobox_retry_targets_line_edit WIN_CLIPBOARD_ERROR
    { focusWidget := some (.comboBox 3 none), logEnvSetNonEmpty := false,
      logFileWritable := false } 3 none (by decide) rfl

/-- Outcome of one translator resolution loop: the directory the translator was
loaded from (none when it stays unloaded) and the directories on which a load
was actually attempted, in order. -/
structure ResolveOutcome where
  loadedFrom : Option String
  attempted : List String
  deriving DecidableEq, Repr

/-- The qtbase translator resolution loop (main.cpp lines 277-283): for each
candidate path in order, if the directory exists, attempt to load the named
translation from it and stop at the first success; a non-existing directory is
passed over without a load attempt. -/
def resolveQtbaseTranslator (qmName : String) (dirExists : String → Bool)
    (load : String → String → Bool) : List String → ResolveOutcome
  | [] => { loadedFrom := none, attempted := [] }
  | path :: rest =>
      if dirExists path then
        if load qmName path then { loadedFrom := some path, attempted := [path] }
        else
          let r := resolveQtbaseTranslator qmName dirExists load rest
          { loadedFrom := r.loadedFrom, attempted := path :: r.attempted }
      else resolveQtbaseTranslator qmName dirExists load rest

/-- The Sigil translator resolution loop (main.cpp lines 291-297): same
structure as the qtbase loop, transcribed separately from its own lines. -/
def resolveSigilTranslator (qmName : String) (dirExists : String → Bool)
    (load : String → String → Bool) : List String → ResolveOutcome
  | [] => { loadedFrom := none, attempted := [] }
  | path :: rest =>
      if dirExists path then
        if load qmName path then { loadedFrom := some path, attempted := [path] }
        else
          let r := resolveSigilTranslator qmName dirExists load rest
          { loadedFrom := r.loadedFrom, attempted := path :: r.attempted }
      else resolveSigilTranslator qmName dirExists load rest

theorem resolveQtbase_success_aux (qmName : String) (dirExists : String → Bool)
    (load : String → String → Bool) :
    ∀ (paths : List String) (i : Nat) (h : i < paths.length),
      (∀ j (hj : j < paths.length), j < i →
        ¬(dirExists (paths.get ⟨j, hj⟩) = true ∧
          load qmName (paths.get ⟨j, hj⟩) = true)) →
      dirExists (paths.get ⟨i, h⟩) = true →
      load qmName (paths.get ⟨i, h⟩) = true →
      resolveQtbaseTranslator qmName dirExists load paths =
        { loadedFrom := some (paths.get ⟨i, h⟩),
          attempted := (paths.take (i + 1)).filter dirExists } := by
  intro paths
  induction paths with
  | nil => intro i h; exact absurd h (Nat.not_lt_zero i)
  | cons p rest ih =>
      intro i h hmin hde hld
      match i with
      | 0 =>
          simp only [List.get] at hde hld
          simp [resolveQtbaseTranslator, hde, hld, List.filter]
      | Nat.succ n =>
          have h0 : ¬(dirExists p = true ∧ load qmName p = true) :=
            hmin 0 (Nat.succ_pos _) (Nat.succ_pos n)
          have hrest := ih n (Nat.lt_of_succ_lt_succ h)
            (fun j hj hjn => hmin (j + 1) (Nat.succ_lt_succ hj) (Nat.succ_lt_succ hjn))
            hde hld
          by_cases hp : dirExists p = true
          · have hlp : load qmName p = false := by
              cases hq : load qmName p with
              | false => rfl
              | true => exact absurd ⟨hp, hq⟩ h0
            simp only [resolveQtbaseTranslator, hp, if_true, hlp, if_false,
              Bool.false_eq_true]
            rw [hrest]
            simp [List.take, List.filter, hp]
          · have hp2 : dirExists p = false := by
              cases hq : dirExists p with
              | false => rfl
              | true => exact absurd hq hp
            simp only [resolveQtbaseTranslator, hp2, Bool.false_eq_true, if_false]
            rw [hrest]
            simp [List.take, List.filter, hp2]

theorem resolveQtbase_none_aux (qmName : String) (dirExists : String → Bool)
    (load : String → String → Bool) :
    ∀ (paths : List String),
      (∀ p, p ∈ paths → ¬(dirExists p = true ∧ load qmName p = true)) →
      resolveQtbaseTranslator qmName dirExists load paths =
        { loadedFrom := none, attempted := paths.filter dirExists } := by
  intro paths
  induction paths with
  | nil => intro _; rfl
  | cons p rest ih =>
      intro hall
      have h0 : ¬(dirExists p = true ∧ load qmName p = true) :=
        hall p (List.mem_cons_self p rest)
      have hrest := ih (fun q hq => hall q (List.mem_cons_of_mem p hq))
      by_cases hp : dirExists p = true
      · have hlp : load qmName p = false := by
          cases hq : load qmName p with
          | false => rfl
          | true => exact absurd ⟨hp, hq⟩ h0
        simp only [resolveQtbaseTranslator, hp, if_true, hlp, Bool.false_eq_true,
          if_false]
        rw [hrest]
        simp [List.filter, hp]
      · have hp2 : dirExists p = false := by
          cases hq : dirExists p with
          | false => rfl
          | true => exact absurd hq hp
        simp only [resolveQtbaseTranslator, hp2, Bool.false_eq_true, if_false]
        rw [hrest]
        simp [List.filter, hp2]

/-- C2: for the translator resolution loop, (a) if position i (0-based) holds
the first candidate directory that both exists and loads successfully, the
translator is loaded from exactly that directory and the attempted loads are
precisely the existing directories among the first i+1 candidates, in input
order (so no candidate after i is ever attempted and non-existing directories
are skipped without an attempt); (b) if no candidate both exists and loads,
the translator stays unloaded (no error value exists) and the attempted loads
are precisely the existing directories of the whole list, in input order.  In
both cases the attempt sequence is an order-preserving, duplicate-preserving
selection of the input list. -/
theorem translator_resolution_first_success (qmName : String)
    (dirExists : String → Bool) (load : String → String → Bool)
    (paths : List String) :
    (∀ (i : Nat) (h : i < paths.length),
      (∀ j (hj : j < paths.length), j < i →
        ¬(dirExists (paths.get ⟨j, hj⟩) = true ∧
          load qmName (paths.get ⟨j, hj⟩) = true)) →
      dirExists (paths.get ⟨i, h⟩) = true →
      load qmName (paths.get ⟨i, h⟩) = true →
      resolveQtbaseTranslator qmName dirExists load paths =
        { loadedFrom := some (paths.get ⟨i, h⟩),
          attempted := (paths.take (i + 1)).filter dirExists }) ∧
    ((∀ p, p ∈ paths → ¬(dirExists p = true ∧ load qmName p = true)) →
      resolveQtbaseTranslator qmName dirExists load paths =
        { loadedFrom := none, attempted := paths.filter dirExists }) := by
  exact ⟨fun i h => resolveQtbase_success_aux qmName dirExists load paths i h,
    resolveQtbase_none_aux qmName dirExists load paths⟩

/-- Witness for C2 at a concrete input: candidates [p0, p1, p2] where p0 does
not exist, p1 exists but fails to load, p2 exists and loads (so i = 2): the
translator is loaded from p2 and only p1 and p2 were attempted; and a second
filesystem where nothing loads: unloaded with attempts [p1, p2]. -/
theorem translator_resolution_first_success_witness :
    (resolveQtbaseTranslator "qtbase_de" (fun p => p != "p0")
        (fun _ p => p == "p2") ["p0", "p1", "p2"] =
      { loadedFrom := some "p2", attempted := ["p1", "p2"] }) ∧
    (resolveQtbaseTranslator "qtbase_de" (fun p => p != "p0")
        (fun _ _ => false) ["p0", "p1", "p2"] =
      { loadedFrom := none, attempted := ["p1", "p2"] }) := by
  constructor
  · have := (translator_resolution_first_success "qtbase_de" (fun p => p != "p0")
      (fun _ p => p == "p2") ["p0", "p1", "p2"]).1 2 (by decide)
      (by decide) (by decide) (by decide)
    simpa using this
  · have := (translator_resolution_first_success "qtbase_de" (fun p => p != "p0")
      (fun _ _ => false) ["p0", "p1", "p2"]).2 (by decide)
    simpa using this

/-- C9: the two per-startup resolution loops (qtbase strings and Sigil
strings) are the same parameterized operation: for every name pattern,
filesystem state and candidate path list they compute identical results. -/
theorem translator_loops_equal (qmName : String) (dirExists : String → Bool)
    (load : String → String → Bool) (paths : List String) :
    resolveQtbaseTranslator qmName dirExists load paths =
      resolveSigilTranslator qmName dirExists load paths := by
  induction paths with
  | nil => rfl
  | cons p rest ih =>
      simp only [resolveQtbaseTranslator, resolveSigilTranslator]
      rw [ih]

/-- Bootstrap steps of main (main.cpp lines 223-417) in program order.  The
first three (application identity metadata, MainApplication construction,
embedded Python setup, lines 231-260) execute before the try block; the rest
execute inside it. -/
inductive BootStep
  | setIdentity
  | constructApp
  | setupPython
  | addLibraryPaths
  | loadSettings
  | installTranslations
  | applyTheme
  | startUpdateCheck
  | installEventFilter
  | parseArguments
  | verifyPlugins
  | constructWindow
  | showWindow
  | runEventLoop
  deriving DecidableEq, BEq, Repr

/-- Observable startup events, emitted when the corresponding step completes. -/
inductive MainEvent
  | identityConfigured
  | appConstructed
  | pythonConfigured
  | libraryPathsAdded
  | settingsLoaded
  | translatorsInstalled
  | themeApplied
  | updateCheckStarted
  | eventFilterInstalled
  | pluginScan
  | windowConstructed
  | windowShown
  | eventLoopStarted
  deriving DecidableEq, BEq, Repr

/-- The world a startup runs against: the argument list (index 0 is the
program name), file readability, the UI language from the settings store, the
candidate translation paths with their filesystem oracles, the scratchpad
path, the value the event loop returns, and which step (if any) raises a
std::exception when executed. -/
structure World where
  args : List String
  fileReadable : String → Bool
  uiLanguage : String
  translationPaths : List String
  dirExists : String → Bool
  loadQm : String → String → Bool
  scratchpadPath : String
  eventLoopResult : Int
  throwAt : Option BootStep
  exceptionWhat : String

/-- Observable outcome of one startup: stdout lines, the process exit status
(none when the process dies on an uncaught exception), dialogs shown, the
event trace, the initial file path the main window was constructed with, and
the outcomes of the two translator resolutions. -/
structure MainResult where
  stdoutLines : List String := []
  exitCode : Option Int := none
  dialogs : List String := []
  events : List MainEvent := []
  windowPath : Option String := none
  crashed : Bool := false
  qtbaseLoadedFrom : Option String := none
  sigilLoadedFrom : Option String := none
  deriving DecidableEq, Repr

/-- GetMainWindow (main.cpp lines 68-76): the first positional argument
becomes the initial file path when it is present and readable, the empty
string otherwise. -/
def getMainWindowPath (arguments : List String) (readable : String → Bool) :
    String :=
  if decide (1 < arguments.length) && readable (arguments.getD 1 "") then
    arguments.getD 1 ""
  else ""

/-- Outcome of an exception escaping a pre-try step: uncaught, the process
dies with no dialog and no exit status from main. -/
def crashedOutcome (ev : List MainEvent) : MainResult :=
  { events := ev, crashed := true }

/-- Outcome of a std::exception escaping a step inside the try block
(main.cpp lines 414-417): one dialog with the exception text and return 1. -/
def caughtOutcome (w : World) (ev : List MainEvent)
    (qt si : Option String) (wp : Option String) : MainResult :=
  { exitCode := some 1, dialogs := [w.exceptionWhat], events := ev,
    windowPath := wp, qtbaseLoadedFrom := qt, sigilLoadedFrom := si }

/-- The bootstrap sequence of main (main.cpp lines 223-417), straight-line
with one throw point selected by throwAt.  Steps before the try block crash
the process when they throw; steps inside it are caught once at line 414.
The "-t" check (line 355) precedes VerifyPlugins, window construction and
show; on its branch the scratchpad path is the only stdout line and main
returns 1. -/
def runMain (w : World) : MainResult :=
  if w.throwAt = some .setIdentity then crashedOutcome [] else
  if w.throwAt = some .constructApp then
    crashedOutcome [.identityConfigured] else
  if w.throwAt = some .setupPython then
    crashedOutcome [.identityConfigured, .appConstructed] else
  let ev3 : List MainEvent :=
    [.identityConfigured, .appConstructed, .pythonConfigured]
  if w.throwAt = some .addLibraryPaths then
    caughtOutcome w ev3 none none none else
  let ev4 := ev3 ++ [.libraryPathsAdded]
  if w.throwAt = some .loadSettings then
    caughtOutcome w ev4 none none none else
  let ev5 := ev4 ++ [.settingsLoaded]
  if w.throwAt = some .installTranslations then
    caughtOutcome w ev5 none none none else
  let qtbase := resolveQtbaseTranslator ("qtbase_" ++ w.uiLanguage)
    w.dirExists w.loadQm w.translationPaths
  let sigil := resolveSigilTranslator ("sigil_" ++ w.uiLanguage)
    w.dirExists w.loadQm w.translationPaths
  let ev6 := ev5 ++ [.translatorsInstalled]
  if w.throwAt = some .applyTheme then
    caughtOutcome w ev6 qtbase.loadedFrom sigil.loadedFrom none else
  let ev7 := ev6 ++ [.themeApplied]
  if w.throwAt = some .startUpdateCheck then
    caughtOutcome w ev7 qtbase.loadedFrom sigil.loadedFrom none else
  let ev8 := ev7 ++ [.updateCheckStarted]
  if w.throwAt = some .installEventFilter then
    caughtOutcome w ev8 qtbase.loadedFrom sigil.loadedFrom none else
  let ev9 := ev8 ++ [.eventFilterInstalled]
  if w.throwAt = some .parseArguments then
    caughtOutcome w ev9 qtbase.loadedFrom sigil.loadedFrom none else
  if w.args.contains "-t" then
    { stdoutLines := [w.scratchpadPath], exitCode := some 1, events := ev9,
      qtbaseLoadedFrom := qtbase.loadedFrom,
      sigilLoadedFrom := sigil.loadedFrom }
  else
  if w.throwAt = some .verifyPlugins then
    caughtOutcome w ev9 qtbase.loadedFrom sigil.loadedFrom none else
  let ev10 := ev9 ++ [.pluginScan]
  if w.throwAt = some .constructWindow then
    caughtOutcome w ev10 qtbase.loadedFrom sigil.loadedFrom none else
  let path := getMainWindowPath w.args w.fileReadable
  let ev11 := ev10 ++ [.windowConstructed]
  if w.throwAt = some .showWindow then
    caughtOutcome w ev11 qtbase.loadedFrom sigil.loadedFrom (some path) else
  let ev12 := ev11 ++ [.windowShown]
  if w.throwAt = some .runEventLoop then
    caughtOutcome w ev12 qtbase.loadedFrom sigil.loadedFrom (some path) else
  { exitCode := some w.eventLoopResult, events := ev12 ++ [.eventLoopStarted],
    windowPath := some path, qtbaseLoadedFrom := qtbase.loadedFrom,
    sigilLoadedFrom := sigil.loadedFrom }

/-- A scratch-path-query startup: the argument list carries "-t", nothing
throws, no translation directory exists. -/
def scratchWorld : World :=
  { args := ["sigil", "-t"], fileReadable := fun _ => false, uiLanguage := "en",
    translationPaths := [], dirExists := fun _ => false,
    loadQm := fun _ _ => false, scratchpadPath := "C:/scratch",
    eventLoopResult := 0, throwAt := none, exceptionWhat := "" }

/-- C3 counterexample: on a concrete "-t" startup the background update check
has already been started and the translators installed before the flag is
examined, so the mode does perform startup side effects other than the print
and the exit. -/
theorem scratch_mode_extra_side_effects_cex :
    "-t" ∈ scratchWorld.args ∧
    MainEvent.updateCheckStarted ∈ (runMain scratchWorld).events ∧
    MainEvent.translatorsInstalled ∈ (runMain scratchWorld).events ∧
    MainEvent.eventFilterInstalled ∈ (runMain scratchWorld).events := by
  refine ⟨?_, ?_, ?_, ?_⟩ <;> simp [scratchWorld, runMain]

/-- C3 amended: when the arguments contain "-t" (and no bootstrap step
throws), the process prints exactly one line, the scratchpad path, to standard
output, exits with status 1, performs no plugin scan, constructs and shows no
window, and shows no dialog; the startup steps that precede argument parsing
(translator installation, theme, update-check start, event-filter install)
have however already run. -/
theorem scratch_mode_prints_and_exits (w : World)
    (ht : "-t" ∈ w.args) (hn : w.throwAt = none) :
    (runMain w).stdoutLines = [w.scratchpadPath] ∧
    (runMain w).exitCode = some 1 ∧
    MainEvent.pluginScan ∉ (runMain w).events ∧
    MainEvent.windowConstructed ∉ (runMain w).events ∧
    MainEvent.windowShown ∉ (runMain w).events ∧
    (runMain w).dialogs = [] := by
  simp [runMain, hn, ht]

/-- Witness for C3 at the concrete scratch-path-query startup. -/
theorem scratch_mode_prints_and_exits_witness :
    (runMain scratchWorld).stdoutLines = ["C:/scratch"] ∧
    (runMain scratchWorld).exitCode = some 1 ∧
    MainEvent.pluginScan ∉ (runMain scratchWorld).events ∧
    MainEvent.windowConstructed ∉ (runMain scratchWorld).events ∧
    MainEvent.windowShown ∉ (runMain scratchWorld).events ∧
    (runMain scratchWorld).dialogs = [] :=
  scratch_mode_prints_and_exits scratchWorld (by simp [scratchWorld]) rfl

/-- A startup whose identity-metadata step (before the try block) raises a
std::exception. -/
def preGuardThrowWorld : World :=
  { args := ["sigil"], fileReadable := fun _ => false, uiLanguage := "en",
    translationPaths := [], dirExists := fun _ => false,
    loadQm := fun _ _ => false, scratchpadPath := "C:/scratch",
    eventLoopResult := 0, throwAt := some .setIdentity,
    exceptionWhat := "boom" }

/-- C5 counterexample: an exception raised by the identity-metadata bootstrap
step (a step before the event loop, but before the try block of main) is not
caught: the process crashes with no dialog and does not exit with status 1. -/
theorem uncaught_pre_guard_exception_cex :
    preGuardThrowWorld.throwAt = some .setIdentity ∧
    (runMain preGuardThrowWorld).crashed = true ∧
    (runMain preGuardThrowWorld).dialogs = [] ∧
    ¬ (runMain preGuardThrowWorld).exitCode = some 1 := by
  decide

/-- The bootstrap steps executed inside the try block of main. -/
def guardedSteps : List BootStep :=
  [.addLibraryPaths, .loadSettings, .installTranslations, .applyTheme,
   .startUpdateCheck, .installEventFilter, .parseArguments, .verifyPlugins,
   .constructWindow, .showWindow, .runEventLoop]

/-- C5 amended: a std::exception escaping a bootstrap step inside the
try-guarded region (library-path setup through the event loop) on a startup
that reaches that step (here: no "-t" short-circuit) is caught exactly once at
the top boundary of main, surfaced as a single modal dialog carrying the
exception text, and the process exits with status 1 without crashing;
exceptions from the steps before the guarded region (identity metadata,
application construction, embedded-interpreter setup) are not caught. -/
theorem guarded_exception_caught_once (w : World) (s : BootStep)
    (hs : w.throwAt = some s) (hg : s ∈ guardedSteps)
    (ht : "-t" ∉ w.args) :
    (runMain w).dialogs = [w.exceptionWhat] ∧
    (runMain w).exitCode = some 1 ∧
    (runMain w).crashed = false := by
  fin_cases hg <;> simp [runMain, hs, ht, caughtOutcome]

/-- A startup whose settings-loading step (inside the try block) raises a
std::exception. -/
def guardThrowWorld : World :=
  { args := ["sigil"], fileReadable := fun _ => false, uiLanguage := "en",
    translationPaths := [], dirExists := fun _ => false,
    loadQm := fun _ _ => false, scratchpadPath := "C:/scratch",
    eventLoopResult := 0, throwAt := some .loadSettings,
    exceptionWhat := "settings store corrupt" }

/-- Witness for C5 at the concrete guarded-throw startup. -/
theorem guarded_exception_caught_once_witness :
    (runMain guardThrowWorld).dialogs = ["settings store corrupt"] ∧
    (runMain guardThrowWorld).exitCode = some 1 ∧
    (runMain guardThrowWorld).crashed = false :=
  guarded_exception_caught_once guardThrowWorld .loadSettings rfl
    (by simp [guardedSteps]) (by simp [guardThrowWorld])

theorem getMainWindowPath_readable (arguments : List String)
    (readable : String → Bool) (h1 : 1 < arguments.length)
    (h2 : readable (arguments.getD 1 "") = true) :
    getMainWindowPath arguments readable = arguments.getD 1 "" := by
  unfold getMainWindowPath
  rw [decide_eq_true h1, h2]
  rfl

theorem getMainWindowPath_fallback (arguments : List String)
    (readable : String → Bool)
    (h : ¬(1 < arguments.length ∧ readable (arguments.getD 1 "") = true)) :
    getMainWindowPath arguments readable = "" := by
  unfold getMainWindowPath
  by_cases h1 : 1 < arguments.length
  · have h2 : readable (arguments.getD 1 "") = false := by
      cases hq : readable (arguments.getD 1 "") with
      | false => rfl
      | true => exact absurd ⟨h1, hq⟩ h
    rw [h2, Bool.and_false]
    rfl
  · rw [decide_eq_false h1, Bool.false_and]
    rfl

/-- C6: on a startup without "-t" (and with no step throwing), if the first
positional argument names a readable file the main window is constructed with
that path, and otherwise (absent, unreadable or nonexistent) with the empty
path, silently: no dialog is shown either way. -/
theorem initial_file_path_selection (w : World)
    (ht : "-t" ∉ w.args) (hn : w.throwAt = none) :
    ((1 < w.args.length ∧ w.fileReadable (w.args.getD 1 "") = true) →
      (runMain w).windowPath = some (w.args.getD 1 "")) ∧
    (¬(1 < w.args.length ∧ w.fileReadable (w.args.getD 1 "") = true) →
      (runMain w).windowPath = some "") ∧
    (runMain w).dialogs = [] := by
  have hwp : (runMain w).windowPath =
      some (getMainWindowPath w.args w.fileReadable) := by
    simp [runMain, hn, ht]
  have hdlg : (runMain w).dialogs = [] := by
    simp [runMain, hn, ht]
  refine ⟨?_, ?_, hdlg⟩
  · rintro ⟨h1, h2⟩
    rw [hwp, getMainWindowPath_readable w.args w.fileReadable h1 h2]
  · intro hno
    rw [hwp, getMainWindowPath_fallback w.args w.fileReadable hno]

/-- A normal startup with a readable first positional argument. -/
def openFileWorld : World :=
  { args := ["sigil", "book.epub"], fileReadable := fun p => p == "book.epub",
    uiLanguage := "en", translationPaths := [], dirExists := fun _ => false,
    loadQm := fun _ _ => false, scratchpadPath := "C:/scratch",
    eventLoopResult := 0, throwAt := none, exceptionWhat := "" }

/-- Witness for C6: the readable-file branch at a concrete startup. -/
theorem initial_file_path_selection_witness :
    (runMain openFileWorld).windowPath = some "book.epub" ∧
    (runMain openFileWorld).dialogs = [] := by
  have h := initial_file_path_selection openFileWorld (by simp [openFileWorld]) rfl
  exact ⟨h.1 ⟨by decide, by decide⟩, h.2.2⟩

/-- Position of the first occurrence of an event in a trace (length of the
trace when absent). -/
def eventPos (e : MainEvent) : List MainEvent → Nat
  | [] => 0
  | x :: xs => if x = e then 0 else eventPos e xs + 1

/-- C7: in every world whose arguments do not contain "-t", whenever the main
window becomes visible the synchronous plugin verification has already
completed: the plugin-scan event occurs in the trace, strictly before the
window-shown event. -/
theorem plugin_scan_precedes_window_show (w : World)
    (ht : "-t" ∉ w.args)
    (hshow : MainEvent.windowShown ∈ (runMain w).events) :
    MainEvent.pluginScan ∈ (runMain w).events ∧
    eventPos MainEvent.pluginScan (runMain w).events <
      eventPos MainEvent.windowShown (runMain w).events := by
  revert hshow
  rcases hthrow : w.throwAt with _ | s
  · simp [runMain, hthrow, ht, eventPos]
  · cases s <;>
      simp [runMain, hthrow, ht, caughtOutcome, crashedOutcome, eventPos]

/-- A plain normal startup: no arguments beyond the program name, nothing
throws. -/
def normalWorld : World :=
  { args := ["sigil"], fileReadable := fun _ => false, uiLanguage := "en",
    translationPaths := [], dirExists := fun _ => false,
    loadQm := fun _ _ => false, scratchpadPath := "C:/scratch",
    eventLoopResult := 0, throwAt := none, exceptionWhat := "" }

/-- Witness for C7 at the concrete normal startup. -/
theorem plugin_scan_precedes_window_show_witness :
    MainEvent.pluginScan ∈ (runMain normalWorld).events ∧
    eventPos MainEvent.pluginScan (runMain normalWorld).events <
      eventPos MainEvent.windowShown (runMain normalWorld).events :=
  plugin_scan_precedes_window_show normalWorld (by simp [normalWorld])
    (by simp [normalWorld, runMain])
